import Mathlib

/-!
Verification of the `music_search_mcp` repository core:
the request cache (`src/music_search_mcp/request_cache.py`),
the cached fetcher and HTML/JSON extraction
(`src/music_search_mcp/api_music_gequbao.py`), and the
search-intent resolution logic.

The Python code is shallowly embedded:
* JSON values are modelled by `JsonVal` (numbers are modelled as integers;
  floating-point literals are outside the model).
* `json.dumps(..., sort_keys=True)` is modelled by `json_dumps_sorted`.
* `hashlib.md5(...).hexdigest()` is modelled by a full MD5 implementation
  over the UTF-8 bytes of the input string (`md5hex`).
* The on-disk cache is modelled as a function from cache key to an optional
  load outcome (missing file / corrupt file / parsed entry), and `time.time()`
  as an explicit `now` parameter.
* The network is modelled as an oracle: `none` is a transport failure
  (a `requests` exception carrying no response), `some r` is a delivered
  HTTP response; `raise_for_status` raises exactly when
  `400 ≤ status_code < 600`, and that `HTTPError` is a subclass of
  `RequestException`, hence caught by the same `except` clause.
* HTML documents are modelled as node trees (`HNode`) with the BeautifulSoup
  operations used by the code (`find`/`find_all` by tag, class and attribute,
  `get_text`, `.string`, attribute lookup); Python `AttributeError` /
  `TypeError` propagation is modelled with `Except`.
-/

/-! ## JSON values and `json.dumps(..., sort_keys=True)` -/

/-- JSON values, as produced by Python dict/list literals and `json.loads`.
Numbers are modelled as integers. Objects are insertion-ordered key/value
lists, as Python dicts are. -/
inductive JsonVal where
  | null : JsonVal
  | bool : Bool → JsonVal
  | num : Int → JsonVal
  | str : String → JsonVal
  | arr : List JsonVal → JsonVal
  | obj : List (String × JsonVal) → JsonVal
deriving Inhabited

/-- Four lowercase hex digits of `n % 65536`, as in Python `\uXXXX` escapes. -/
def hex4 (n : Nat) : String :=
  let d := fun (k : Nat) => (Nat.digitChar (n / k % 16))
  String.mk [d 4096, d 256, d 16, d 1]

/-- Escape one character the way Python `json.dumps` (default
`ensure_ascii=True`) does: printable ASCII passes through, short escapes for
the usual control characters, `\uXXXX` (with surrogate pairs above the BMP)
for everything else. -/
def jsonEscapeChar (c : Char) : String :=
  if c = '"' then "\\\""
  else if c = '\\' then "\\\\"
  else if c = Char.ofNat 10 then "\\n"
  else if c = Char.ofNat 9 then "\\t"
  else if c = Char.ofNat 13 then "\\r"
  else if c = Char.ofNat 8 then "\\b"
  else if c = Char.ofNat 12 then "\\f"
  else if 32 ≤ c.toNat ∧ c.toNat ≤ 126 then String.singleton c
  else if c.toNat ≤ 65535 then "\\u" ++ hex4 c.toNat
  else
    let v := c.toNat - 65536
    "\\u" ++ hex4 (55296 + v / 1024) ++ "\\u" ++ hex4 (56320 + v % 1024)

/-- Python `json.dumps` rendering of a string literal. -/
def jsonQuote (s : String) : String :=
  "\"" ++ String.join (s.data.map jsonEscapeChar) ++ "\""

/-- Order on rendered object items: compare keys (Python sorts dict items
by key when `sort_keys=True`). -/
def keyLE (a b : String × String) : Prop := a.1 ≤ b.1

instance : DecidableRel keyLE := fun a b => inferInstanceAs (Decidable (a.1 ≤ b.1))

instance : IsTotal (String × String) keyLE := ⟨fun a b => le_total a.1 b.1⟩

instance : IsTrans (String × String) keyLE := ⟨fun _ _ _ h₁ h₂ => le_trans h₁ h₂⟩

mutual
/-- `json.dumps(v, sort_keys=True)` with the default separators `", "` and
`": "` and `ensure_ascii=True`: object items are emitted in ascending key
order. -/
def json_dumps_sorted : JsonVal → String
  | .null => "null"
  | .bool b => if b then "true" else "false"
  | .num n => toString n
  | .str s => jsonQuote s
  | .arr xs => "[" ++ String.intercalate ", " (dumpsArr xs) ++ "]"
  | .obj fs =>
      "\x7b" ++
        String.intercalate ", "
          ((List.insertionSort keyLE (dumpsObj fs)).map
            (fun p => jsonQuote p.1 ++ ": " ++ p.2)) ++
      "\x7d"

/-- Render every element of a JSON array. -/
def dumpsArr : List JsonVal → List String
  | [] => []
  | x :: xs => json_dumps_sorted x :: dumpsArr xs

/-- Render every value of a JSON object, keeping the keys. -/
def dumpsObj : List (String × JsonVal) → List (String × String)
  | [] => []
  | p :: ps => (p.1, json_dumps_sorted p.2) :: dumpsObj ps
end

/-! ## MD5 (`hashlib.md5(...).hexdigest()`), over UTF-8 bytes

Machine words are `Nat` reduced modulo `2^32` explicitly. -/

/-- UTF-8 encoding of one character, as a list of byte values. -/
def utf8Bytes (c : Char) : List Nat :=
  let n := c.toNat
  if n < 128 then [n]
  else if n < 2048 then [192 + n / 64, 128 + n % 64]
  else if n < 65536 then [224 + n / 4096, 128 + n / 64 % 64, 128 + n % 64]
  else [240 + n / 262144, 128 + n / 4096 % 64, 128 + n / 64 % 64, 128 + n % 64]

/-- UTF-8 bytes of a string (Python `s.encode('utf-8')`). -/
def strUtf8 (s : String) : List Nat := (s.data.map utf8Bytes).flatten

/-- 32-bit left rotation. -/
def rotl32 (x n : Nat) : Nat := ((x <<< n) ||| (x >>> (32 - n))) % 4294967296

/-- 32-bit bitwise complement (for `x < 2^32`). -/
def not32 (x : Nat) : Nat := 4294967295 - x

/-- The 64 MD5 round constants `K[i] = floor(abs(sin(i+1)) * 2^32)`. -/
def md5K : List Nat :=
  [0xd76aa478, 0xe8c7b756, 0x242070db, 0xc1bdceee,
   0xf57c0faf, 0x4787c62a, 0xa8304613, 0xfd469501,
   0x698098d8, 0x8b44f7af, 0xffff5bb1, 0x895cd7be,
   0x6b901122, 0xfd987193, 0xa679438e, 0x49b40821,
   0xf61e2562, 0xc040b340, 0x265e5a51, 0xe9b6c7aa,
   0xd62f105d, 0x02441453, 0xd8a1e681, 0xe7d3fbc8,
   0x21e1cde6, 0xc33707d6, 0xf4d50d87, 0x455a14ed,
   0xa9e3e905, 0xfcefa3f8, 0x676f02d9, 0x8d2a4c8a,
   0xfffa3942, 0x8771f681, 0x6d9d6122, 0xfde5380c,
   0xa4beea44, 0x4bdecfa9, 0xf6bb4b60, 0xbebfbc70,
   0x289b7ec6, 0xeaa127fa, 0xd4ef3085, 0x04881d05,
   0xd9d4d039, 0xe6db99e5, 0x1fa27cf8, 0xc4ac5665,
   0xf4292244, 0x432aff97, 0xab9423a7, 0xfc93a039,
   0x655b59c3, 0x8f0ccc92, 0xffeff47d, 0x85845dd1,
   0x6fa87e4f, 0xfe2ce6e0, 0xa3014314, 0x4e0811a1,
   0xf7537e82, 0xbd3af235, 0x2ad7d2bb, 0xeb86d391]

/-- The 64 per-round left-rotation amounts. -/
def md5S : List Nat :=
  [7, 12, 17, 22, 7, 12, 17, 22, 7, 12, 17, 22, 7, 12, 17, 22,
   5, 9, 14, 20, 5, 9, 14, 20, 5, 9, 14, 20, 5, 9, 14, 20,
   4, 11, 16, 23, 4, 11, 16, 23, 4, 11, 16, 23, 4, 11, 16, 23,
   6, 10, 15, 21, 6, 10, 15, 21, 6, 10, 15, 21, 6, 10, 15, 21]

/-- MD5 padding: append `0x80`, zero bytes to 56 mod 64, then the original
bit length as 8 little-endian bytes. -/
def md5pad (msg : List Nat) : List Nat :=
  let len := msg.length
  let zeros := (120 - (len + 1) % 64) % 64
  let bitLen := (len * 8) % 18446744073709551616
  msg ++ [128] ++ List.replicate zeros 0 ++
    (List.range 8).map (fun i => bitLen >>> (8 * i) % 256)

/-- Split a byte list into 64-byte chunks. -/
def chunks64 (l : List Nat) : List (List Nat) :=
  if h : l = [] then []
  else l.take 64 :: chunks64 (l.drop 64)
termination_by l.length
decreasing_by
  simp only [List.length_drop]
  cases l with
  | nil => exact absurd rfl h
  | cons a t => simp; omega

/-- The `j`-th 32-bit little-endian word of a 64-byte chunk. -/
def md5word (chunk : List Nat) (j : Nat) : Nat :=
  chunk.getD (4 * j) 0 + 256 * chunk.getD (4 * j + 1) 0 +
    65536 * chunk.getD (4 * j + 2) 0 + 16777216 * chunk.getD (4 * j + 3) 0

/-- One MD5 round `i` (0 ≤ i < 64) on state `(A, B, C, D)`. -/
def md5round (chunk : List Nat) (st : Nat × Nat × Nat × Nat) (i : Nat) :
    Nat × Nat × Nat × Nat :=
  let A := st.1
  let B := st.2.1
  let C := st.2.2.1
  let D := st.2.2.2
  let fg : Nat × Nat :=
    if i < 16 then ((B &&& C) ||| (not32 B &&& D), i)
    else if i < 32 then ((D &&& B) ||| (not32 D &&& C), (5 * i + 1) % 16)
    else if i < 48 then (B ^^^ C ^^^ D, (3 * i + 5) % 16)
    else (C ^^^ (B ||| not32 D), (7 * i) % 16)
  let f := (fg.1 + A + md5K.getD i 0 + md5word chunk fg.2) % 4294967296
  (D, (B + rotl32 f (md5S.getD i 0)) % 4294967296, B, C)

/-- Process one 64-byte chunk, updating the four state words. -/
def md5chunk (st : Nat × Nat × Nat × Nat) (chunk : List Nat) :
    Nat × Nat × Nat × Nat :=
  let r := (List.range 64).foldl (md5round chunk) st
  ((st.1 + r.1) % 4294967296, (st.2.1 + r.2.1) % 4294967296,
   (st.2.2.1 + r.2.2.1) % 4294967296, (st.2.2.2 + r.2.2.2) % 4294967296)

/-- Lowercase hex of one byte. -/
def byteHex (b : Nat) : String :=
  String.mk [Nat.digitChar (b / 16 % 16), Nat.digitChar (b % 16)]

/-- Lowercase hex of a 32-bit word, little-endian byte order. -/
def word32hexLE (w : Nat) : String :=
  String.join ((List.range 4).map fun i => byteHex (w >>> (8 * i) % 256))

/-- `hashlib.md5(bytes).hexdigest()`. -/
def md5hexBytes (msg : List Nat) : String :=
  let st := (chunks64 (md5pad msg)).foldl md5chunk
    (0x67452301, 0xefcdab89, 0x98badcfe, 0x10325476)
  word32hexLE st.1 ++ word32hexLE st.2.1 ++ word32hexLE st.2.2.1 ++
    word32hexLE st.2.2.2

/-- `hashlib.md5(s.encode('utf-8')).hexdigest()`. -/
def md5hex (s : String) : String := md5hexBytes (strUtf8 s)

/-! ## `request_cache.py`: key derivation and `RequestCache.get` -/

/-- Python `str.upper()`, character by character (the strings it is applied
to — HTTP method names — are ASCII). -/
def strUpper (s : String) : String := String.mk (s.data.map Char.toUpper)

/-- Python `str.lower()`, character by character (full Unicode case
mapping is outside the model; the compared keyword/artist/title strings are
ASCII or caseless CJK text). -/
def strLower (s : String) : String := String.mk (s.data.map Char.toLower)

/-- The `data` argument of the Python functions: either a dict
(`Sum.inl`, a key/value list) or a raw string (`Sum.inr`). -/
def ReqData := Sum (List (String × JsonVal)) String

/-- Python truthiness of the optional `json_data` dict
(`None` and `{}` are falsy). -/
def dictTruthy : Option (List (String × JsonVal)) → Bool
  | none => false
  | some l => !l.isEmpty

/-- Python truthiness of the optional `data` argument
(`None`, `{}` and `""` are falsy). -/
def dataTruthy : Option ReqData → Bool
  | none => false
  | some (.inl d) => !d.isEmpty
  | some (.inr s) => !s.isEmpty

/-- `RequestCache._generate_cache_key`: `"|"`-join of
`[method.upper(), url]` plus, for POST only, the canonicalized body
(`json.dumps(json_data, sort_keys=True)` if `json_data` is truthy, else the
dict `data` dumped the same way or the raw string `data` via `str`), then
MD5-hashed. -/
def _generate_cache_key (url : String) (method : String := "GET")
    (data : Option ReqData := none)
    (json_data : Option (List (String × JsonVal)) := none) : String :=
  let key_parts : List String := [strUpper method, url]
  let key_parts :=
    if strUpper method = "POST" then
      if dictTruthy json_data then
        key_parts ++ [json_dumps_sorted (.obj (json_data.getD []))]
      else if dataTruthy data then
        match data with
        | some (.inl d) => key_parts ++ [json_dumps_sorted (.obj d)]
        | some (.inr s) => key_parts ++ [s]
        | none => key_parts
      else key_parts
    else key_parts
  md5hex (String.intercalate "|" key_parts)

/-- A parsed cache file: `timestamp` (seconds), `status_code`, `headers`,
`content` and `encoding`, as written by `RequestCache.set`. -/
structure CacheData where
  timestamp : Int
  status_code : Nat
  headers : List (String × String)
  content : String
  encoding : String
deriving DecidableEq

/-- What loading one cache file yields: the file is absent (`Option.none`
at the store level), unparsable (`corrupt`: `json.load` raised, which
`RequestCache.get` turns into a miss), or a parsed entry. -/
inductive CacheLoad where
  | corrupt : CacheLoad
  | entry : CacheData → CacheLoad

/-- The on-disk cache directory, modelled as a map from cache key (file
name) to the outcome of loading that file. -/
def CacheStore := String → Option CacheLoad

/-- View a loadable cache file as a `CacheData`. -/
def CacheLoad.data? : CacheLoad → Option CacheData
  | .corrupt => none
  | .entry d => some d

/-- `RequestCache.CACHE_EXPIRY`: 24 hours in seconds. -/
def CACHE_EXPIRY : Int := 24 * 60 * 60

/-- `RequestCache.get`: derives the cache key, returns `none` when the file
is absent or unparsable; otherwise returns the entry together with its
`is_expired` flag, `age > cache_expiry` where `age = now - timestamp`
(default expiry `CACHE_EXPIRY` when the argument is `None`). -/
def RequestCache.get (store : CacheStore) (now : Int) (url : String)
    (method : String := "GET") (data : Option ReqData := none)
    (json_data : Option (List (String × JsonVal)) := none)
    (cache_expiry : Option Int := none) : Option (CacheData × Bool) :=
  let expiry := cache_expiry.getD CACHE_EXPIRY
  let cache_key := _generate_cache_key url method data json_data
  match store cache_key with
  | none => none
  | some load =>
    match load.data? with
    | none => none
    | some d => some (d, decide (now - d.timestamp > expiry))

/-! ## `api_music_gequbao.py`: the cached fetcher -/

/-- A `requests.Response`, restricted to the fields the code touches. -/
structure HttpResponse where
  status_code : Nat
  text : String
  headers : List (String × String)
  encoding : String
deriving DecidableEq

/-- What one call of `gequbao_request` did: the value returned or the
exception raised, whether the network was attempted, and the cache file
written (if any). -/
structure FetchOutcome where
  result : Except String HttpResponse
  networkCalled : Bool
  cacheWrite : Option CacheData

/-- `_create_response_from_cache`: rebuild a `requests.Response` from the
cached fields. -/
def _create_response_from_cache (d : CacheData) : HttpResponse :=
  { status_code := d.status_code, text := d.content,
    headers := d.headers, encoding := d.encoding }

/-- `requests.Response.raise_for_status` raises `HTTPError` exactly for
status codes in `[400, 600)`. -/
def raise_for_status_raises (r : HttpResponse) : Bool :=
  400 ≤ r.status_code && r.status_code < 600

/-- The cache entry `_save_response_to_cache`/`RequestCache.set` writes for
a response: current time plus the response snapshot. -/
def savedCacheData (now : Int) (r : HttpResponse) : CacheData :=
  { timestamp := now, status_code := r.status_code,
    headers := r.headers, content := r.text, encoding := r.encoding }

/-- The `try`/`except` body of `gequbao_request`: attempt the network call
(`net = none` models a transport failure, `some r` a delivered response).
`raise_for_status` raises `HTTPError`, a subclass of `RequestException`, so
both it and transport failures land in the same `except` clause: return the
stale `cached_response` if one was retained, else raise. On success the
response is cached when `use_cache` is true. -/
def attempt_network (net : Option HttpResponse) (now : Int)
    (use_cache : Bool) (cached_response : Option CacheData) : FetchOutcome :=
  match net with
  | some r =>
    if raise_for_status_raises r then
      match cached_response with
      | some d =>
        { result := .ok (_create_response_from_cache d),
          networkCalled := true, cacheWrite := none }
      | none =>
        { result := .error "网络请求失败", networkCalled := true,
          cacheWrite := none }
    else
      { result := .ok r, networkCalled := true,
        cacheWrite := if use_cache then some (savedCacheData now r) else none }
  | none =>
    match cached_response with
    | some d =>
      { result := .ok (_create_response_from_cache d),
        networkCalled := true, cacheWrite := none }
    | none =>
      { result := .error "网络请求失败", networkCalled := true,
        cacheWrite := none }

/-- `gequbao_request`: prefix the base URL, consult the cache when
`use_cache` is true (a fresh hit returns immediately with no network call; a
stale hit is retained as `cached_response`), then attempt the network call.
The unused `headers`/`cookies`/`params` arguments of the Python function do
not influence the cache key or the modelled outcome and are omitted. -/
def gequbao_request (store : CacheStore) (now : Int)
    (net : Option HttpResponse) (path : String) (method : String := "GET")
    (data : Option ReqData := none)
    (json_data : Option (List (String × JsonVal)) := none)
    (use_cache : Bool := true) (cache_expiry : Option Int := none) :
    FetchOutcome :=
  let full_url := "https://www.gequbao.com" ++ path
  if use_cache then
    match RequestCache.get store now full_url method data json_data
        cache_expiry with
    | some (d, false) =>
      { result := .ok (_create_response_from_cache d),
        networkCalled := false, cacheWrite := none }
    | some (d, true) => attempt_network net now use_cache (some d)
    | none => attempt_network net now use_cache none
  else attempt_network net now use_cache none

/-! ## HTML documents and the BeautifulSoup operations used by the code -/

/-- An HTML node: a text node, or an element with a tag name, attributes
and children. A parsed document (soup) is a list of root nodes. -/
inductive HNode where
  | text : String → HNode
  | elem : String → List (String × String) → List HNode → HNode

/-- `tag.get(name)`: attribute lookup. -/
def attrGet (attrs : List (String × String)) (k : String) : Option String :=
  (attrs.find? (fun p => p.1 == k)).map (fun p => p.2)

/-- Python `str.split()` with no argument (as BeautifulSoup uses for
multi-valued attributes): split on runs of whitespace, no empty pieces.
`acc` holds the current word in reverse. -/
def splitWsAux : List Char → List Char → List String
  | [], acc => if acc.isEmpty then [] else [String.mk acc.reverse]
  | c :: rest, acc =>
    if c.isWhitespace then
      if acc.isEmpty then splitWsAux rest []
      else String.mk acc.reverse :: splitWsAux rest []
    else splitWsAux rest (c :: acc)

/-- Whitespace-split words of a string. -/
def splitWs (s : String) : List String := splitWsAux s.data []

/-- BeautifulSoup `class_=c` matching: `c` is one of the whitespace-split
values of the `class` attribute. -/
def hasClass (attrs : List (String × String)) (c : String) : Bool :=
  match attrGet attrs "class" with
  | none => false
  | some v => (splitWs v).contains c

/-- A BeautifulSoup filter: tag name, optional `class_` keyword, optional
exact-match attribute keyword (used for `id=...` and `type=...`). -/
structure Sel where
  tag : String
  cls : Option String
  attr : Option (String × String)

/-- Does a node match a filter? (Text nodes never do.) -/
def selMatch (q : Sel) : HNode → Bool
  | .text _ => false
  | .elem t attrs _ =>
    t == q.tag &&
    (match q.cls with | none => true | some c => hasClass attrs c) &&
    (match q.attr with
     | none => true
     | some kv => attrGet attrs kv.1 == some kv.2)

mutual
/-- All matching elements in a node list, in document (pre-)order:
`soup.find_all(...)` over the roots. -/
def findAllNodes (q : Sel) : List HNode → List HNode
  | [] => []
  | n :: rest =>
    (if selMatch q n then [n] else []) ++ findAllIn q n ++ findAllNodes q rest

/-- All matching descendants of one node (the node itself excluded), in
document order: `tag.find_all(...)`. -/
def findAllIn (q : Sel) : HNode → List HNode
  | .text _ => []
  | .elem _ _ cs => findAllNodes q cs
end

/-- `soup.find(...)`: the first match in document order, or `None`. -/
def listFind (q : Sel) (roots : List HNode) : Option HNode :=
  (findAllNodes q roots).head?

/-- `tag.find(...)`: the first matching descendant, or `None`. -/
def nodeFindIn (q : Sel) (n : HNode) : Option HNode :=
  (findAllIn q n).head?

mutual
/-- The descendant text-node strings of a node, in document order. -/
def textsOf : HNode → List String
  | .text s => [s]
  | .elem _ _ cs => textsList cs

/-- The descendant text-node strings of a node list, in document order. -/
def textsList : List HNode → List String
  | [] => []
  | n :: rest => textsOf n ++ textsList rest
end

/-- Python `str.strip()`: drop whitespace from both ends. -/
def listTrim (s : String) : String :=
  String.mk
    (((s.data.dropWhile Char.isWhitespace).reverse.dropWhile
      Char.isWhitespace).reverse)

/-- `tag.get_text(separator=sep, strip=strip)`: join the descendant
strings with `sep`; with `strip` each string is stripped and strings empty
after stripping are dropped. -/
def getText (sep : String) (strip : Bool) (n : HNode) : String :=
  let ts := textsOf n
  let ts := if strip then (ts.map listTrim).filter (fun s => !(s == "")) else ts
  String.intercalate sep ts

/-- `tag.string` for a child position: a text node yields its string, an
element with exactly one child recurses, anything else is `None`. -/
def childString : HNode → Option String
  | .text s => some s
  | .elem _ _ [c] => childString c
  | .elem _ _ _ => none

/-- `tag.string` on a tag: defined when the tag has a single child whose
`.string` is defined. -/
def tagString : HNode → Option String
  | .text _ => none
  | .elem _ _ [c] => childString c
  | .elem _ _ _ => none

/-! ## `parse_music_data` and `parse_play_data` -/

/-- One parsed song listing: the dict
`{"link": link, "text": [song_title, artist_name]}`. -/
structure Listing where
  link : String
  title : String
  artist : String
deriving DecidableEq

/-- `row_tag.get("href")` on a row node. -/
def rowLink : HNode → Option String
  | .text _ => none
  | .elem _ attrs _ => attrGet attrs "href"

/-- The loop body of `parse_music_data` over the `a.music-link` rows:
`row.get("href")` may be `None` (skipped by the truthiness test), but
`row.find("span", class_="music-title")` or `row.find("small")` returning
`None` makes the subsequent `.get_text(strip=True)` raise `AttributeError`,
aborting the whole parse. Rows whose link is missing/empty or whose
title/artist text is empty are skipped. -/
def parseSongRows : List HNode → Except String (List Listing)
  | [] => .ok []
  | row :: rest =>
    let link := rowLink row
    match nodeFindIn ⟨"span", some "music-title", none⟩ row with
    | none => .error "AttributeError"
    | some titleTag =>
      let song_title := getText "" true titleTag
      match nodeFindIn ⟨"small", none, none⟩ row with
      | none => .error "AttributeError"
      | some artistTag =>
        let artist_name := getText "" true artistTag
        match parseSongRows rest with
        | .error e => .error e
        | .ok tail =>
          if link.getD "" ≠ "" ∧ song_title ≠ "" ∧ artist_name ≠ "" then
            .ok ({ link := link.getD "", title := song_title,
                   artist := artist_name } :: tail)
          else .ok tail

/-- `parse_music_data`: find `div.card-text` (absent ⇒ `[]`), collect the
`a.music-link` rows inside it, and extract a listing from each row. -/
def parse_music_data (soup : List HNode) : Except String (List Listing) :=
  match listFind ⟨"div", some "card-text", none⟩ soup with
  | none => .ok []
  | some card => parseSongRows (findAllIn ⟨"a", some "music-link", none⟩ card)

/-- The loop body of `parse_play_data`, transcribed from its own source
lines (which coincide with those of `parse_music_data`). -/
def parsePlayRows : List HNode → Except String (List Listing)
  | [] => .ok []
  | row :: rest =>
    let link := rowLink row
    match nodeFindIn ⟨"span", some "music-title", none⟩ row with
    | none => .error "AttributeError"
    | some titleTag =>
      let song_title := getText "" true titleTag
      match nodeFindIn ⟨"small", none, none⟩ row with
      | none => .error "AttributeError"
      | some artistTag =>
        let artist_name := getText "" true artistTag
        match parsePlayRows rest with
        | .error e => .error e
        | .ok tail =>
          if link.getD "" ≠ "" ∧ song_title ≠ "" ∧ artist_name ≠ "" then
            .ok ({ link := link.getD "", title := song_title,
                   artist := artist_name } :: tail)
          else .ok tail

/-- `parse_play_data`: transcribed from its own source lines. -/
def parse_play_data (soup : List HNode) : Except String (List Listing) :=
  match listFind ⟨"div", some "card-text", none⟩ soup with
  | none => .ok []
  | some card => parsePlayRows (findAllIn ⟨"a", some "music-link", none⟩ card)

/-! ## The `window.appData` regex and `json.loads` -/

/-- The opening brace character. -/
def lbrace : Char := Char.ofNat 123

/-- The closing brace character. -/
def rbrace : Char := Char.ofNat 125

/-- Consume a literal character sequence. -/
def litChars : List Char → List Char → Option (List Char)
  | [], s => some s
  | _ :: _, [] => none
  | p :: ps, c :: cs => if c = p then litChars ps cs else none

/-- The non-greedy tail of `({.*?});` with `re.DOTALL`: scan for the first
closing brace that is immediately followed by a semicolon; the group is the
brace-delimited text up to and including that brace. `acc` holds the
consumed characters in reverse. -/
def takeToCloseSemi (acc : List Char) : List Char → Option String
  | [] => none
  | a :: rest =>
    if a = rbrace then
      match rest with
      | b :: _ =>
        if b = ';' then some (String.mk ((a :: acc).reverse))
        else takeToCloseSemi (a :: acc) rest
      | [] => none
    else takeToCloseSemi (a :: acc) rest

/-- Try to match `window\.appData\s*=\s*({.*?});` anchored at the start of
`s`, returning group 1. -/
def appDataAt (s : List Char) : Option String :=
  match litChars "window.appData".data s with
  | none => none
  | some s1 =>
    match (s1.dropWhile Char.isWhitespace) with
    | c :: s2 =>
      if c = '=' then
        match s2.dropWhile Char.isWhitespace with
        | d :: s3 => if d = lbrace then takeToCloseSemi [d] s3 else none
        | [] => none
      else none
    | [] => none

/-- `re.search(r"window\.appData\s*=\s*({.*?});", content, re.DOTALL)`:
try every start position in order and return group 1 of the first match. -/
def searchAppData (s : List Char) : Option String :=
  match appDataAt s with
  | some r => some r
  | none =>
    match s with
    | [] => none
    | _ :: rest => searchAppData rest

/-- Python dict item assignment `d[k] = v`: overwrite in place if the key
exists, else append (insertion order preserved). -/
def dictSet (l : List (String × JsonVal)) (k : String) (v : JsonVal) :
    List (String × JsonVal) :=
  if l.any (fun p => p.1 == k) then
    l.map (fun p => if p.1 == k then (k, v) else p)
  else l ++ [(k, v)]

/-- JSON whitespace (space, tab, newline, carriage return). -/
def jsonWs (c : Char) : Bool :=
  c == ' ' || c == Char.ofNat 9 || c == Char.ofNat 10 || c == Char.ofNat 13

/-- Value of a hex digit. -/
def hexVal? (c : Char) : Option Nat :=
  if '0' ≤ c ∧ c ≤ '9' then some (c.toNat - 48)
  else if 'a' ≤ c ∧ c ≤ 'f' then some (c.toNat - 87)
  else if 'A' ≤ c ∧ c ≤ 'F' then some (c.toNat - 55)
  else none

/-- Parse exactly four hex digits. -/
def parseHex4 : List Char → Option (Nat × List Char)
  | a :: b :: c :: d :: rest =>
    match hexVal? a, hexVal? b, hexVal? c, hexVal? d with
    | some x, some y, some z, some w =>
      some (4096 * x + 256 * y + 16 * z + w, rest)
    | _, _, _, _ => none
  | _ => none

/-- Parse the body of a JSON string literal (after the opening quote),
handling the short escapes and `\uXXXX` with surrogate-pair combination
(a lone surrogate becomes U+FFFD, which Lean strings can represent).
Unescaped control characters are rejected, as Python `json.loads` does by
default. `acc` is the parsed text in reverse. -/
def parseJStringAux (fuel : Nat) (acc : List Char) (s : List Char) :
    Option (String × List Char) :=
  match fuel with
  | 0 => none
  | fuel + 1 =>
    match s with
    | [] => none
    | c :: rest =>
      if c = '"' then some (String.mk acc.reverse, rest)
      else if c = '\\' then
        match rest with
        | [] => none
        | e :: rest2 =>
          if e = '"' ∨ e = '\\' ∨ e = '/' then
            parseJStringAux fuel (e :: acc) rest2
          else if e = 'b' then parseJStringAux fuel (Char.ofNat 8 :: acc) rest2
          else if e = 'f' then parseJStringAux fuel (Char.ofNat 12 :: acc) rest2
          else if e = 'n' then parseJStringAux fuel (Char.ofNat 10 :: acc) rest2
          else if e = 'r' then parseJStringAux fuel (Char.ofNat 13 :: acc) rest2
          else if e = 't' then parseJStringAux fuel (Char.ofNat 9 :: acc) rest2
          else if e = 'u' then
            match parseHex4 rest2 with
            | none => none
            | some (v, rest3) =>
              if 55296 ≤ v ∧ v < 56320 then
                match rest3 with
                | u1 :: u2 :: rest4 =>
                  if u1 = '\\' ∧ u2 = 'u' then
                    match parseHex4 rest4 with
                    | some (w, rest5) =>
                      if 56320 ≤ w ∧ w < 57344 then
                        parseJStringAux fuel
                          (Char.ofNat (65536 + (v - 55296) * 1024 + (w - 56320))
                            :: acc) rest5
                      else parseJStringAux fuel (Char.ofNat 65533 :: acc) rest3
                    | none => parseJStringAux fuel (Char.ofNat 65533 :: acc) rest3
                  else parseJStringAux fuel (Char.ofNat 65533 :: acc) rest3
                | _ => parseJStringAux fuel (Char.ofNat 65533 :: acc) rest3
              else if 56320 ≤ v ∧ v < 57344 then
                parseJStringAux fuel (Char.ofNat 65533 :: acc) rest3
              else parseJStringAux fuel (Char.ofNat v :: acc) rest3
          else none
      else if c.toNat < 32 then none
      else parseJStringAux fuel (c :: acc) rest

/-- Numeric value of a digit sequence. -/
def digitsToNat (ds : List Char) : Nat :=
  ds.foldl (fun a c => a * 10 + (c.toNat - 48)) 0

/-- Parse a JSON integer literal (optional minus, `0` or a nonzero-led
digit sequence). Fractional and exponent parts are outside the model. -/
def parseJNumber : List Char → Option (Int × List Char)
  | [] => none
  | c :: rest =>
    let signed : Bool := c = '-'
    let body := if signed then rest else c :: rest
    match body with
    | [] => none
    | d :: ds =>
      if d = '0' then
        some (0, ds)
      else if '1' ≤ d ∧ d ≤ '9' then
        let digits := d :: ds.takeWhile Char.isDigit
        let n : Int := Int.ofNat (digitsToNat digits)
        some (if signed then -n else n, ds.dropWhile Char.isDigit)
      else none

mutual
/-- `json.loads` recursive-descent value parser (fuel-indexed; the fuel is
initialised to more than the input length, and every recursive call follows
the consumption of at least one character, so it never runs dry on inputs
that parse). -/
def parseJValue : Nat → List Char → Option (JsonVal × List Char)
  | 0, _ => none
  | fuel + 1, s =>
    match s with
    | [] => none
    | c :: rest =>
      if c = '"' then
        match parseJStringAux (rest.length + 1) [] rest with
        | some (str, r) => some (.str str, r)
        | none => none
      else if c = lbrace then
        parseJMembers fuel (rest.dropWhile jsonWs) [] true
      else if c = '[' then
        parseJElems fuel (rest.dropWhile jsonWs) [] true
      else if c = 't' then
        (litChars "rue".data rest).map (fun r => (.bool true, r))
      else if c = 'f' then
        (litChars "alse".data rest).map (fun r => (.bool false, r))
      else if c = 'n' then
        (litChars "ull".data rest).map (fun r => (.null, r))
      else
        match parseJNumber (c :: rest) with
        | some (n, r) => some (.num n, r)
        | none => none

/-- Object-member parser: `first` is true just after the opening brace
(where a closing brace means the empty object). Duplicate keys follow
Python dict semantics (last value wins, first position kept). -/
def parseJMembers : Nat → List Char → List (String × JsonVal) → Bool →
    Option (JsonVal × List Char)
  | 0, _, _, _ => none
  | fuel + 1, s, acc, first =>
    match s with
    | [] => none
    | c :: rest =>
      if first ∧ c = rbrace then some (.obj acc, rest)
      else if c = '"' then
        match parseJStringAux (rest.length + 1) [] rest with
        | none => none
        | some (k, r1) =>
          match r1.dropWhile jsonWs with
          | ':' :: r2 =>
            match parseJValue fuel (r2.dropWhile jsonWs) with
            | none => none
            | some (v, r3) =>
              match r3.dropWhile jsonWs with
              | ',' :: r4 =>
                parseJMembers fuel (r4.dropWhile jsonWs) (dictSet acc k v) false
              | d :: r4 =>
                if d = rbrace then some (.obj (dictSet acc k v), r4) else none
              | [] => none
          | _ => none
      else none

/-- Array-element parser: `first` is true just after the opening bracket. -/
def parseJElems : Nat → List Char → List JsonVal → Bool →
    Option (JsonVal × List Char)
  | 0, _, _, _ => none
  | fuel + 1, s, acc, first =>
    match s with
    | [] => none
    | c :: rest =>
      if first ∧ c = ']' then some (.arr acc.reverse, rest)
      else
        match parseJValue fuel (c :: rest) with
        | none => none
        | some (v, r1) =>
          match r1.dropWhile jsonWs with
          | ',' :: r2 => parseJElems fuel (r2.dropWhile jsonWs) (v :: acc) false
          | ']' :: r2 => some (.arr (v :: acc).reverse, r2)
          | _ => none
end

/-- `json.loads`: parse one value with surrounding whitespace allowed and
nothing else trailing. -/
def json_loads (s : String) : Option JsonVal :=
  match parseJValue (s.data.length + 1) (s.data.dropWhile jsonWs) with
  | some (v, rest) => if (rest.dropWhile jsonWs).isEmpty then some v else none
  | none => none

/-! ## `extract_app_data` -/

/-- The body of the script-scanning loop of `extract_app_data`, given the
already-extracted lyrics text: for each `script` tag in order, take its
`.string` (`None` makes `re.search` raise `TypeError`), search for the
`window.appData` assignment (no match ⇒ next script), and `json.loads` the
group (success ⇒ set `data["lrc"]` and return the dict;
`JSONDecodeError` ⇒ return `None` immediately, later scripts are not
tried). -/
def scanScripts (lrc : String) :
    List HNode → Except String (Option (List (String × JsonVal)))
  | [] => .ok none
  | sc :: rest =>
    match tagString sc with
    | none => .error "TypeError"
    | some content =>
      match searchAppData content.data with
      | none => scanScripts lrc rest
      | some json_str =>
        match json_loads json_str with
        | some (.obj fs) => .ok (some (dictSet fs "lrc" (.str lrc)))
        | some _ => .error "TypeError"
        | none => .ok none

/-- The lyrics extraction of `extract_app_data`: the text of
`div#content-lrc` with `separator='\n'`, or the empty string when the
element is absent. -/
def extract_lrc (soup : List HNode) : String :=
  match listFind ⟨"div", none, some ("id", "content-lrc")⟩ soup with
  | none => ""
  | some d => getText "\n" false d

/-- The `script[type="text/javascript"]` tags of the document, in
document order. -/
def scriptTags (soup : List HNode) : List HNode :=
  findAllNodes ⟨"script", none, some ("type", "text/javascript")⟩ soup

/-- `extract_app_data`: extract the lyrics text from `div#content-lrc`
(`get_text(separator='\n')`, empty string when absent), then scan the
`script[type="text/javascript"]` tags for the `window.appData` JSON
object. -/
def extract_app_data (soup : List HNode) :
    Except String (Option (List (String × JsonVal))) :=
  scanScripts (extract_lrc soup) (scriptTags soup)

/-! ## Intent resolution (`api_music_gequbao_search`, selection steps) -/

/-- The `ValueError` message raised on empty search results. -/
def noResultsMsg (keyword : String) : String :=
  "没有搜索到关于 \x27" ++ keyword ++ "\x27 的歌曲, 请更换关键词"

/-- Steps 1-3 of `api_music_gequbao_search`: the guard on empty/absent
results and the intent-based selection. `sounds` is what `search_sound`
returned (`none` models Python `None`); `choice` models the index
`random.choice` draws (reduced modulo the candidate count). Raises
`ValueError` when `not sounds`; classifies intent as artist-search iff the
keyword equals the top artist case-insensitively; for artist-search filters
the listings to that artist and picks `artist_songs[choice % len]`, falling
back to the top result if the filter is empty; otherwise returns the top
result. -/
def api_music_gequbao_select (keyword : String)
    (sounds : Option (List Listing)) (choice : Nat) : Except String Listing :=
  match sounds with
  | none => .error (noResultsMsg keyword)
  | some [] => .error (noResultsMsg keyword)
  | some (top_result :: restSounds) =>
    let soundsList := top_result :: restSounds
    let top_artist_name := top_result.artist
    let search_type : String :=
      if strLower keyword = strLower top_artist_name then "artist" else "song"
    if search_type = "artist" then
      let artist_songs :=
        soundsList.filter (fun s => strLower s.artist = strLower top_artist_name)
      match artist_songs with
      | [] => .ok top_result
      | a :: rest2 =>
        .ok ((a :: rest2).get
          ⟨choice % (a :: rest2).length, Nat.mod_lt _ (Nat.succ_pos _)⟩)
    else .ok top_result

/-! ## Theorems -/

/-- C10: `parse_play_data` and `parse_music_data` are extensionally equal:
their sources are line-for-line identical, and so are their embeddings. -/
theorem parse_play_data_eq_parse_music_data :
    ∀ soup : List HNode, parse_play_data soup = parse_music_data soup := by
  intro soup
  have hrows : ∀ rows : List HNode, parsePlayRows rows = parseSongRows rows := by
    intro rows
    induction rows with
    | nil => rfl
    | cons r rs ih =>
      simp only [parsePlayRows, parseSongRows, ih]
  unfold parse_play_data parse_music_data
  cases listFind ⟨"div", some "card-text", none⟩ soup with
  | none => rfl
  | some card => exact hrows _

/-- C9: intent resolution over an absent (`None`) or empty listing sequence
always raises the user-facing "no results" `ValueError`, for every keyword
and every random draw — it never returns a selection. -/
theorem select_empty_raises_no_results :
    ∀ (keyword : String) (choice : Nat),
      api_music_gequbao_select keyword none choice =
        .error (noResultsMsg keyword) ∧
      api_music_gequbao_select keyword (some []) choice =
        .error (noResultsMsg keyword) :=
  fun _ _ => ⟨rfl, rfl⟩

/-- C4: `RequestCache.get` returns `None` when no cache file exists for the
derived identity; when the file exists and parses it returns the entry with
its staleness flag, the entry being fresh (flag `false`) exactly when
`now - timestamp ≤ maxAge` — stale entries are returned, never omitted. -/
theorem requestCache_get_characterization
    (store : CacheStore) (now : Int) (url method : String)
    (data : Option ReqData) (json_data : Option (List (String × JsonVal)))
    (cache_expiry : Option Int) :
    (store (_generate_cache_key url method data json_data) = none →
      RequestCache.get store now url method data json_data cache_expiry
        = none) ∧
    (∀ d : CacheData,
      store (_generate_cache_key url method data json_data) =
        some (.entry d) →
      ∃ stale : Bool,
        RequestCache.get store now url method data json_data cache_expiry
          = some (d, stale) ∧
        (stale = false ↔ now - d.timestamp ≤ cache_expiry.getD CACHE_EXPIRY)) := by
  constructor
  · intro h
    simp only [RequestCache.get, h]
  · intro d h
    refine ⟨decide (now - d.timestamp > cache_expiry.getD CACHE_EXPIRY), ?_, ?_⟩
    · simp only [RequestCache.get, h, CacheLoad.data?]
    · simp only [decide_eq_false_iff_not, not_lt]

/-- Witness for C4: an empty store misses; a store holding one parsed entry
written at time 0, read at time 10 with the default expiry, returns it. -/
theorem requestCache_get_characterization_witness :
    (RequestCache.get (fun _ => none) 10 "https://www.gequbao.com/s/x"
      "GET" none none none = none) ∧
    (∃ stale : Bool,
      RequestCache.get (fun _ => some (.entry ⟨0, 200, [], "body", "utf-8"⟩))
        10 "https://www.gequbao.com/s/x" "GET" none none none =
        some (⟨0, 200, [], "body", "utf-8"⟩, stale) ∧
      (stale = false ↔ (10 : Int) - (0 : Int) ≤ Option.getD none CACHE_EXPIRY)) :=
  ⟨(requestCache_get_characterization (fun _ => none) 10
      "https://www.gequbao.com/s/x" "GET" none none none).1 rfl,
   (requestCache_get_characterization
      (fun _ => some (.entry ⟨0, 200, [], "body", "utf-8"⟩)) 10
      "https://www.gequbao.com/s/x" "GET" none none none).2
      ⟨0, 200, [], "body", "utf-8"⟩ rfl⟩

/-- C5: with `use_cache = True`, when the cache lookup finds a fresh entry
(`now - timestamp ≤ maxAge`), `gequbao_request` returns the response
rebuilt from that entry immediately: no network call is made and nothing is
written. -/
theorem fetch_fresh_cache_hit
    (store : CacheStore) (now : Int) (net : Option HttpResponse)
    (path method : String) (data : Option ReqData)
    (json_data : Option (List (String × JsonVal)))
    (cache_expiry : Option Int) (d : CacheData)
    (hstore : store (_generate_cache_key ("https://www.gequbao.com" ++ path)
        method data json_data) = some (.entry d))
    (hfresh : now - d.timestamp ≤ cache_expiry.getD CACHE_EXPIRY) :
    gequbao_request store now net path method data json_data true
        cache_expiry =
      { result := .ok (_create_response_from_cache d),
        networkCalled := false, cacheWrite := none } := by
  have hd : decide (now - d.timestamp > cache_expiry.getD CACHE_EXPIRY)
      = false := decide_eq_false (not_lt.mpr hfresh)
  simp only [gequbao_request, RequestCache.get, hstore, CacheLoad.data?,
    hd, if_true]

/-- Witness for C5: a constant store with an entry written at time 0, read
at time 10; the fetch returns the cached response without touching the
network oracle. -/
theorem fetch_fresh_cache_hit_witness :
    gequbao_request (fun _ => some (.entry ⟨0, 200, [], "body", "utf-8"⟩))
        10 none "/s/x" "GET" none none true none =
      { result := .ok (_create_response_from_cache ⟨0, 200, [], "body", "utf-8"⟩),
        networkCalled := false, cacheWrite := none } :=
  fetch_fresh_cache_hit (fun _ => some (.entry ⟨0, 200, [], "body", "utf-8"⟩))
    10 none "/s/x" "GET" none none none ⟨0, 200, [], "body", "utf-8"⟩ rfl
    (by decide)

/-- C2: with `use_cache = True` and a transport failure (the network oracle
delivers no response): a stale entry for the derived identity is returned,
reconstructed as a response; with no cache file present the fetch raises
the retrieval error. -/
theorem fetch_transport_failure_fallback
    (store : CacheStore) (now : Int) (path method : String)
    (data : Option ReqData) (json_data : Option (List (String × JsonVal)))
    (cache_expiry : Option Int) :
    (∀ d : CacheData,
      store (_generate_cache_key ("https://www.gequbao.com" ++ path)
          method data json_data) = some (.entry d) →
      now - d.timestamp > cache_expiry.getD CACHE_EXPIRY →
      gequbao_request store now none path method data json_data true
          cache_expiry =
        { result := .ok (_create_response_from_cache d),
          networkCalled := true, cacheWrite := none }) ∧
    (store (_generate_cache_key ("https://www.gequbao.com" ++ path)
        method data json_data) = none →
      gequbao_request store now none path method data json_data true
          cache_expiry =
        { result := .error "网络请求失败", networkCalled := true,
          cacheWrite := none }) := by
  constructor
  · intro d hstore hstale
    have hd : decide (now - d.timestamp > cache_expiry.getD CACHE_EXPIRY)
        = true := decide_eq_true hstale
    simp only [gequbao_request, RequestCache.get, hstore, CacheLoad.data?,
      hd, if_true, attempt_network]
  · intro hstore
    simp only [gequbao_request, RequestCache.get, hstore, if_true,
      attempt_network]

/-- Witness for C2: a stale entry (written at time 0, read at time 100000,
default 24h expiry) is served on transport failure; an empty store makes
the same fetch raise. -/
theorem fetch_transport_failure_fallback_witness :
    (gequbao_request (fun _ => some (.entry ⟨0, 200, [], "old", "utf-8"⟩))
        100000 none "/s/x" "GET" none none true none =
      { result := .ok (_create_response_from_cache ⟨0, 200, [], "old", "utf-8"⟩),
        networkCalled := true, cacheWrite := none }) ∧
    (gequbao_request (fun _ => none) 100000 none "/s/x" "GET" none none
        true none =
      { result := .error "网络请求失败", networkCalled := true,
        cacheWrite := none }) :=
  ⟨(fetch_transport_failure_fallback
      (fun _ => some (.entry ⟨0, 200, [], "old", "utf-8"⟩)) 100000 "/s/x"
      "GET" none none none).1 ⟨0, 200, [], "old", "utf-8"⟩ rfl (by decide),
   (fetch_transport_failure_fallback (fun _ => none) 100000 "/s/x" "GET"
      none none none).2 rfl⟩

/-- A stale cache entry used in the C1 counterexample. -/
def c1Entry : CacheData := ⟨0, 200, [], "cached body", "utf-8"⟩

/-- A cache store holding `c1Entry` under every key. -/
def c1Store : CacheStore := fun _ => some (.entry c1Entry)

/-- A 404 response from the server. -/
def c1Resp404 : HttpResponse := ⟨404, "Not Found", [], "utf-8"⟩

/-- C1 counterexample: at time 100000 the cached entry (written at time 0,
24h default expiry) is stale, and the server answers 404 — a non-2xx
response, so `raise_for_status` raises `HTTPError`. `HTTPError` is a
subclass of `RequestException`, so the `except` clause catches it and
serves the stale entry: the non-2xx response IS served from the
stale-fallback path and is NOT a hard failure, contradicting the claim. -/
theorem fetch_http_error_counterexample :
    c1Resp404.status_code = 404 ∧
    (100000 : Int) - c1Entry.timestamp > CACHE_EXPIRY ∧
    (gequbao_request c1Store 100000 (some c1Resp404) "/s/x" "GET" none none
        true none).result = .ok (_create_response_from_cache c1Entry) :=
  ⟨rfl, by decide, rfl⟩

/-- C1 (amended): a non-2xx HTTP response is never written to the cache,
but it is NOT excluded from stale fallback: like a transport failure, it is
caught by the same `except RequestException` clause, so with a stale entry
present the fetch returns the stale entry, and it is a hard failure of the
fetch only when the cache holds nothing for the identity. -/
theorem fetch_http_error_stale_fallback
    (store : CacheStore) (now : Int) (path method : String)
    (data : Option ReqData) (json_data : Option (List (String × JsonVal)))
    (cache_expiry : Option Int) (r : HttpResponse)
    (hr : 400 ≤ r.status_code ∧ r.status_code < 600) :
    (∀ d : CacheData,
      store (_generate_cache_key ("https://www.gequbao.com" ++ path)
          method data json_data) = some (.entry d) →
      now - d.timestamp > cache_expiry.getD CACHE_EXPIRY →
      gequbao_request store now (some r) path method data json_data true
          cache_expiry =
        { result := .ok (_create_response_from_cache d),
          networkCalled := true, cacheWrite := none }) ∧
    (store (_generate_cache_key ("https://www.gequbao.com" ++ path)
        method data json_data) = none →
      gequbao_request store now (some r) path method data json_data true
          cache_expiry =
        { result := .error "网络请求失败", networkCalled := true,
          cacheWrite := none }) := by
  have hraises : raise_for_status_raises r = true := by
    simp only [raise_for_status_raises, Bool.and_eq_true, decide_eq_true_eq]
    exact hr
  constructor
  · intro d hstore hstale
    have hd : decide (now - d.timestamp > cache_expiry.getD CACHE_EXPIRY)
        = true := decide_eq_true hstale
    simp only [gequbao_request, RequestCache.get, hstore, CacheLoad.data?,
      hd, if_true, attempt_network, hraises]
  · intro hstore
    simp only [gequbao_request, RequestCache.get, hstore, if_true,
      attempt_network, hraises]

/-- Witness for the amended C1: a 404 with a stale entry returns the stale
response uncached; a 404 with an empty cache raises. -/
theorem fetch_http_error_stale_fallback_witness :
    (400 ≤ c1Resp404.status_code ∧ c1Resp404.status_code < 600) ∧
    (gequbao_request c1Store 100000 (some c1Resp404) "/s/x" "GET" none none
        true none =
      { result := .ok (_create_response_from_cache c1Entry),
        networkCalled := true, cacheWrite := none }) ∧
    (gequbao_request (fun _ => none) 100000 (some c1Resp404) "/s/x" "GET"
        none none true none =
      { result := .error "网络请求失败", networkCalled := true,
        cacheWrite := none }) :=
  ⟨by decide,
   (fetch_http_error_stale_fallback c1Store 100000 "/s/x" "GET" none none
      none c1Resp404 (by decide)).1 c1Entry rfl (by decide),
   (fetch_http_error_stale_fallback (fun _ => none) 100000 "/s/x" "GET"
      none none none c1Resp404 (by decide)).2 rfl⟩

/-- `dumpsObj` is a map over the field list. -/
theorem dumpsObj_eq_map (fs : List (String × JsonVal)) :
    dumpsObj fs = fs.map (fun p => (p.1, json_dumps_sorted p.2)) := by
  induction fs with
  | nil => rfl
  | cons p ps ih => simp only [dumpsObj, ih, List.map_cons]

/-- Two key-sorted association lists that are permutations of each other
and have pairwise-distinct keys are equal. -/
theorem sorted_perm_nodupkeys_eq :
    ∀ {l₁ l₂ : List (String × String)}, l₁.Perm l₂ →
      (l₁.map Prod.fst).Nodup → l₁.Sorted keyLE → l₂.Sorted keyLE → l₁ = l₂ := by
  intro l₁
  induction l₁ with
  | nil =>
    intro l₂ hp _ _ _
    have := hp.length_eq
    cases l₂ with
    | nil => rfl
    | cons b t₂ => simp at this
  | cons a t ih =>
    intro l₂ hp hn hs₁ hs₂
    cases l₂ with
    | nil =>
      have := hp.length_eq
      simp at this
    | cons b t₂ =>
      have hmem_b : b ∈ a :: t := hp.symm.subset (List.mem_cons_self b t₂)
      have hmem_a : a ∈ b :: t₂ := hp.subset (List.mem_cons_self a t)
      have h₁ := List.sorted_cons.mp hs₁
      have h₂ := List.sorted_cons.mp hs₂
      have hab : keyLE a b := by
        rcases List.mem_cons.mp hmem_b with h | h
        · exact h ▸ le_refl a.1
        · exact h₁.1 b h
      have hba : keyLE b a := by
        rcases List.mem_cons.mp hmem_a with h | h
        · exact h ▸ le_refl b.1
        · exact h₂.1 a h
      have hkey : a.1 = b.1 := le_antisymm hab hba
      have hn0 : (a.1 :: t.map Prod.fst).Nodup := by
        rw [List.map_cons] at hn; exact hn
      have hn' := List.nodup_cons.mp hn0
      have hb_eq : b = a := by
        rcases List.mem_cons.mp hmem_b with h | h
        · exact h
        · exfalso
          apply hn'.1
          have hm : b.1 ∈ t.map Prod.fst := List.mem_map_of_mem Prod.fst h
          rwa [← hkey] at hm
      subst hb_eq
      have htail := ih hp.cons_inv hn'.2 h₁.2 h₂.2
      rw [htail]

/-- Serializing a JSON object with sorted keys is invariant under
permutation of its (distinct-keyed) fields. -/
theorem json_dumps_sorted_obj_perm {fs₁ fs₂ : List (String × JsonVal)}
    (hp : fs₁.Perm fs₂) (hn : (fs₁.map Prod.fst).Nodup) :
    json_dumps_sorted (.obj fs₁) = json_dumps_sorted (.obj fs₂) := by
  have hperm : (dumpsObj fs₁).Perm (dumpsObj fs₂) := by
    rw [dumpsObj_eq_map, dumpsObj_eq_map]
    exact hp.map _
  have hkeys : ((dumpsObj fs₁).map Prod.fst).Nodup := by
    rw [dumpsObj_eq_map, List.map_map]
    exact hn
  have heq : List.insertionSort keyLE (dumpsObj fs₁) =
      List.insertionSort keyLE (dumpsObj fs₂) := by
    apply sorted_perm_nodupkeys_eq
    · exact ((List.perm_insertionSort keyLE (dumpsObj fs₁)).trans hperm).trans
        (List.perm_insertionSort keyLE (dumpsObj fs₂)).symm
    · exact ((List.perm_insertionSort keyLE (dumpsObj fs₁)).map
        Prod.fst).nodup_iff.mpr hkeys
    · exact List.sorted_insertionSort keyLE (dumpsObj fs₁)
    · exact List.sorted_insertionSort keyLE (dumpsObj fs₂)
  simp only [json_dumps_sorted, heq]

/-- Permutations have equal `isEmpty`. -/
theorem perm_isEmpty_eq {α : Type} {l₁ l₂ : List α} (hp : l₁.Perm l₂) :
    l₁.isEmpty = l₂.isEmpty := by
  cases l₁ with
  | nil =>
    have := hp.length_eq
    cases l₂ with
    | nil => rfl
    | cons b t => simp at this
  | cons a t =>
    have := hp.length_eq
    cases l₂ with
    | nil => simp at this
    | cons b t₂ => rfl

/-- C3: the cache identity depends only on the uppercased method and the
URL for non-body-bearing methods (any body is ignored unless the method
is POST); it is a function of the uppercased method; and for POST bodies
(either the `json_data` dict or a dict `data`) two structurally-equal
bodies differing only in key order — a permutation of the distinct-keyed
field list — derive the same identity. -/
theorem cache_key_identity :
    (∀ (url method : String) (d₁ d₂ : Option ReqData)
        (j₁ j₂ : Option (List (String × JsonVal))),
      strUpper method ≠ "POST" →
      _generate_cache_key url method d₁ j₁ =
        _generate_cache_key url method d₂ j₂) ∧
    (∀ (url m₁ m₂ : String) (d : Option ReqData)
        (j : Option (List (String × JsonVal))),
      strUpper m₁ = strUpper m₂ →
      _generate_cache_key url m₁ d j = _generate_cache_key url m₂ d j) ∧
    (∀ (url method : String) (d : Option ReqData)
        (fs₁ fs₂ : List (String × JsonVal)),
      fs₁.Perm fs₂ → (fs₁.map Prod.fst).Nodup →
      _generate_cache_key url method d (some fs₁) =
        _generate_cache_key url method d (some fs₂)) ∧
    (∀ (url method : String) (j : Option (List (String × JsonVal)))
        (fs₁ fs₂ : List (String × JsonVal)),
      fs₁.Perm fs₂ → (fs₁.map Prod.fst).Nodup →
      _generate_cache_key url method (some (.inl fs₁)) j =
        _generate_cache_key url method (some (.inl fs₂)) j) := by
  refine ⟨?_, ?_, ?_, ?_⟩
  · intro url method d₁ d₂ j₁ j₂ h
    simp only [_generate_cache_key, if_neg h]
  · intro url m₁ m₂ d j h
    simp only [_generate_cache_key, h]
  · intro url method d fs₁ fs₂ hp hn
    have hie : fs₁.isEmpty = fs₂.isEmpty := perm_isEmpty_eq hp
    have hdict : dictTruthy (some fs₁) = dictTruthy (some fs₂) := by
      simp only [dictTruthy, hie]
    by_cases hpost : strUpper method = "POST"
    · by_cases htruthy : dictTruthy (some fs₁) = true
      · have hdump := json_dumps_sorted_obj_perm hp hn
        simp only [_generate_cache_key, if_pos hpost, htruthy,
          hdict ▸ htruthy, if_true, Option.getD_some, hdump]
      · have h₁ : dictTruthy (some fs₁) = false :=
          Bool.eq_false_iff.mpr htruthy
        have h₂ : dictTruthy (some fs₂) = false := hdict ▸ h₁
        simp only [_generate_cache_key, if_pos hpost, h₁, h₂,
          Bool.false_eq_true, if_false]
    · simp only [_generate_cache_key, if_neg hpost]
  · intro url method j fs₁ fs₂ hp hn
    have hie : fs₁.isEmpty = fs₂.isEmpty := perm_isEmpty_eq hp
    by_cases hpost : strUpper method = "POST"
    · by_cases hjson : dictTruthy j = true
      · simp only [_generate_cache_key, if_pos hpost, hjson, if_true]
      · have hj : dictTruthy j = false := Bool.eq_false_iff.mpr hjson
        have hda : dataTruthy (some (.inl fs₁)) = dataTruthy (some (.inl fs₂)) := by
          simp only [dataTruthy, hie]
        by_cases htruthy : dataTruthy (some (.inl fs₁)) = true
        · have hdump := json_dumps_sorted_obj_perm hp hn
          simp only [_generate_cache_key, if_pos hpost, hj,
            Bool.false_eq_true, if_false, htruthy, hda ▸ htruthy, if_true,
            hdump]
        · have h₁ : dataTruthy (some (.inl fs₁)) = false :=
            Bool.eq_false_iff.mpr htruthy
          have h₂ : dataTruthy (some (.inl fs₂)) = false := hda ▸ h₁
          simp only [_generate_cache_key, if_pos hpost, hj,
            Bool.false_eq_true, if_false, h₁, h₂]
    · simp only [_generate_cache_key, if_neg hpost]

/-- Witness for C3: a GET ignores differing bodies; `"get"` and `"GET"`
derive the same key; the POST body `{"id": "42", "quality": "hq"}` with its
two field orders derives the same key, both as `json_data` and as a dict
`data`. -/
theorem cache_key_identity_witness :
    (_generate_cache_key "https://www.gequbao.com/s/x" "GET"
        (some (.inr "extra")) (some [("a", .num 1)]) =
      _generate_cache_key "https://www.gequbao.com/s/x" "GET" none none) ∧
    (_generate_cache_key "https://www.gequbao.com/api/play-url" "get" none
        none =
      _generate_cache_key "https://www.gequbao.com/api/play-url" "GET" none
        none) ∧
    (_generate_cache_key "https://www.gequbao.com/api/play-url" "POST" none
        (some [("id", .str "42"), ("quality", .str "hq")]) =
      _generate_cache_key "https://www.gequbao.com/api/play-url" "POST" none
        (some [("quality", .str "hq"), ("id", .str "42")])) ∧
    (_generate_cache_key "https://www.gequbao.com/api/play-url" "POST"
        (some (.inl [("id", .str "42"), ("quality", .str "hq")])) none =
      _generate_cache_key "https://www.gequbao.com/api/play-url" "POST"
        (some (.inl [("quality", .str "hq"), ("id", .str "42")])) none) :=
  ⟨cache_key_identity.1 "https://www.gequbao.com/s/x" "GET"
      (some (.inr "extra")) none (some [("a", .num 1)]) none (by decide),
   cache_key_identity.2.1 "https://www.gequbao.com/api/play-url" "get"
      "GET" none none (by decide),
   cache_key_identity.2.2.1 "https://www.gequbao.com/api/play-url" "POST"
      none [("id", .str "42"), ("quality", .str "hq")]
      [("quality", .str "hq"), ("id", .str "42")]
      (List.Perm.swap _ _ _) (by decide),
   cache_key_identity.2.2.2 "https://www.gequbao.com/api/play-url" "POST"
      none [("id", .str "42"), ("quality", .str "hq")]
      [("quality", .str "hq"), ("id", .str "42")]
      (List.Perm.swap _ _ _) (by decide)⟩

/-- Does a row have both the `span.music-title` and the `small`
sub-element? When false, the `.get_text` call on the `None` result of
`find` raises `AttributeError`. -/
def rowBothFound (row : HNode) : Bool :=
  (nodeFindIn ⟨"span", some "music-title", none⟩ row).isSome &&
  (nodeFindIn ⟨"small", none, none⟩ row).isSome

/-- The listing one row contributes when both sub-elements are present:
`none` when the link is missing/empty or the title/artist text is empty
(the row is skipped), `some` otherwise. -/
def rowListing (row : HNode) : Option Listing :=
  match nodeFindIn ⟨"span", some "music-title", none⟩ row,
      nodeFindIn ⟨"small", none, none⟩ row with
  | some titleTag, some artistTag =>
    let link := rowLink row
    let song_title := getText "" true titleTag
    let artist_name := getText "" true artistTag
    if link.getD "" ≠ "" ∧ song_title ≠ "" ∧ artist_name ≠ "" then
      some { link := link.getD "", title := song_title,
             artist := artist_name }
    else none
  | _, _ => none

/-- When every row has both sub-elements, the row loop returns the
filter-mapped listings and never aborts. -/
theorem parseSongRows_all_found (rows : List HNode)
    (h : ∀ r ∈ rows, rowBothFound r = true) :
    parseSongRows rows = .ok (rows.filterMap rowListing) := by
  induction rows with
  | nil => rfl
  | cons r rs ih =>
    have hr := h r (List.mem_cons_self r rs)
    have hrs := ih (fun x hx => h x (List.mem_cons_of_mem r hx))
    simp only [rowBothFound, Bool.and_eq_true, Option.isSome_iff_exists]
      at hr
    obtain ⟨⟨tn, htn⟩, ⟨an, han⟩⟩ := hr
    rw [List.filterMap_cons]
    simp only [parseSongRows, rowListing, htn, han, hrs]
    split
    · rfl
    · rfl

/-- When some row is missing a sub-element, the row loop aborts with
`AttributeError`. -/
theorem parseSongRows_missing_aborts (rows : List HNode)
    (h : ∃ r ∈ rows, rowBothFound r = false) :
    parseSongRows rows = .error "AttributeError" := by
  induction rows with
  | nil =>
    obtain ⟨r, hr, _⟩ := h
    exact absurd hr (List.not_mem_nil r)
  | cons r rs ih =>
    by_cases hr : rowBothFound r = true
    · obtain ⟨x, hx, hxf⟩ := h
      have hx_rs : x ∈ rs := by
        rcases List.mem_cons.mp hx with he | hm
        · rw [he, hr] at hxf; cases hxf
        · exact hm
      have htail := ih ⟨x, hx_rs, hxf⟩
      simp only [rowBothFound, Bool.and_eq_true, Option.isSome_iff_exists]
        at hr
      obtain ⟨⟨tn, htn⟩, ⟨an, han⟩⟩ := hr
      simp only [parseSongRows, htn, han, htail]
    · cases hspan : nodeFindIn ⟨"span", some "music-title", none⟩ r with
      | none => simp only [parseSongRows, hspan]
      | some tn =>
        cases hsmall : nodeFindIn ⟨"small", none, none⟩ r with
        | none => simp only [parseSongRows, hspan, hsmall]
        | some an =>
          exact absurd (by simp [rowBothFound, hspan, hsmall]) hr

/-- C6 (amended): `parse_music_data` yields `[]` when the results
container is absent; when every song row has both the title and the artist
sub-element, it never aborts and silently skips exactly the rows whose
link attribute is missing/empty or whose title/artist text is empty; but a
row lacking the title or artist sub-element altogether raises
`AttributeError` and aborts the whole parse. -/
theorem parse_music_data_robustness :
    (∀ soup : List HNode,
      listFind ⟨"div", some "card-text", none⟩ soup = none →
      parse_music_data soup = .ok []) ∧
    (∀ (soup : List HNode) (card : HNode),
      listFind ⟨"div", some "card-text", none⟩ soup = some card →
      (∀ r ∈ findAllIn ⟨"a", some "music-link", none⟩ card,
        rowBothFound r = true) →
      parse_music_data soup =
        .ok ((findAllIn ⟨"a", some "music-link", none⟩ card).filterMap
          rowListing)) ∧
    (∀ (soup : List HNode) (card : HNode),
      listFind ⟨"div", some "card-text", none⟩ soup = some card →
      (∃ r ∈ findAllIn ⟨"a", some "music-link", none⟩ card,
        rowBothFound r = false) →
      parse_music_data soup = .error "AttributeError") := by
  refine ⟨?_, ?_, ?_⟩
  · intro soup hnone
    simp only [parse_music_data, hnone]
  · intro soup card hcard hall
    simp only [parse_music_data, hcard]
    exact parseSongRows_all_found _ hall
  · intro soup card hcard hbad
    simp only [parse_music_data, hcard]
    exact parseSongRows_missing_aborts _ hbad

/-- The claim C6 test input: one well-formed entry and one entry missing
the artist (`small`) sub-element. -/
def c6Soup : List HNode :=
  [.elem "div" [("class", "card-text")]
    [.elem "a" [("class", "music-link"), ("href", "/music/39466")]
      [.elem "span" [("class", "music-title")] [.text "园游会"],
       .elem "small" [] [.text "周杰伦"]],
     .elem "a" [("class", "music-link"), ("href", "/music/2")]
      [.elem "span" [("class", "music-title")] [.text "晴天"]]]]

/-- C6 counterexample: on an input with one well-formed entry and one
entry missing the artist sub-element, `parse_music_data` does not yield
exactly one listing — `row.find("small")` returns `None` and the chained
`.get_text(strip=True)` raises `AttributeError`, aborting the whole
parse. -/
theorem parse_music_data_missing_artist_counterexample :
    parse_music_data c6Soup = .error "AttributeError" := rfl

/-- A container-less document. -/
def c6NoContainer : List HNode := [.elem "div" [] [.text "nothing"]]

/-- A document whose rows all have both sub-elements: one complete row and
one row without an `href` (which is skipped, not fatal). -/
def c6GoodSoup : List HNode :=
  [.elem "div" [("class", "card-text")]
    [.elem "a" [("class", "music-link"), ("href", "/music/39466")]
      [.elem "span" [("class", "music-title")] [.text "园游会"],
       .elem "small" [] [.text "周杰伦"]],
     .elem "a" [("class", "music-link")]
      [.elem "span" [("class", "music-title")] [.text "晴天"],
       .elem "small" [] [.text "周杰伦"]]]]

/-- Witness for the amended C6: the container-less document parses to
`[]`; the all-sub-elements document parses without aborting (the row
missing `href` is skipped); `c6Soup` aborts with `AttributeError`. -/
theorem parse_music_data_robustness_witness :
    (parse_music_data c6NoContainer = .ok []) ∧
    (parse_music_data c6GoodSoup =
      .ok ((findAllIn ⟨"a", some "music-link", none⟩
        (.elem "div" [("class", "card-text")]
          [.elem "a" [("class", "music-link"), ("href", "/music/39466")]
            [.elem "span" [("class", "music-title")] [.text "园游会"],
             .elem "small" [] [.text "周杰伦"]],
           .elem "a" [("class", "music-link")]
            [.elem "span" [("class", "music-title")] [.text "晴天"],
             .elem "small" [] [.text "周杰伦"]]])).filterMap rowListing)) ∧
    (parse_music_data c6Soup = .error "AttributeError") :=
  ⟨parse_music_data_robustness.1 c6NoContainer rfl,
   parse_music_data_robustness.2.1 c6GoodSoup _ rfl (by decide),
   parse_music_data_robustness.2.2 c6Soup _ rfl (by decide)⟩

/-- When every script's string matches nothing, the scan returns `None`. -/
theorem scanScripts_no_match (lrc : String) (scripts : List HNode)
    (h : ∀ sc ∈ scripts, ∃ c, tagString sc = some c ∧
      searchAppData c.data = none) :
    scanScripts lrc scripts = .ok none := by
  induction scripts with
  | nil => rfl
  | cons sc rest ih =>
    obtain ⟨c, hc, hs⟩ := h sc (List.mem_cons_self sc rest)
    simp only [scanScripts, hc, hs]
    exact ih (fun x hx => h x (List.mem_cons_of_mem sc hx))

/-- The first script whose string matches the `window.appData` pattern
decides the scan: its group either parses (dict returned with `lrc` set) or
does not (`None` returned at once, later scripts untried). -/
theorem scanScripts_first_match (lrc : String) (pre : List HNode)
    (sc : HNode) (post : List HNode) (content m : String)
    (hpre : ∀ s ∈ pre, ∃ c, tagString s = some c ∧
      searchAppData c.data = none)
    (hsc : tagString sc = some content)
    (hm : searchAppData content.data = some m) :
    (∀ fs, json_loads m = some (.obj fs) →
      scanScripts lrc (pre ++ sc :: post) =
        .ok (some (dictSet fs "lrc" (.str lrc)))) ∧
    (json_loads m = none →
      scanScripts lrc (pre ++ sc :: post) = .ok none) := by
  induction pre with
  | nil =>
    constructor
    · intro fs hl
      simp only [List.nil_append, scanScripts, hsc, hm, hl]
    · intro hl
      simp only [List.nil_append, scanScripts, hsc, hm, hl]
  | cons p ps ih =>
    obtain ⟨c, hc, hs⟩ := hpre p (List.mem_cons_self p ps)
    have ih' := ih (fun x hx => hpre x (List.mem_cons_of_mem p hx))
    constructor
    · intro fs hl
      simp only [List.cons_append, scanScripts, hc, hs]
      exact ih'.1 fs hl
    · intro hl
      simp only [List.cons_append, scanScripts, hc, hs]
      exact ih'.2 hl

/-- C7 (amended): `extract_app_data` scans the script blocks in order and
the FIRST script whose content matches the `window.appData` assignment
pattern decides the result: if its JSON parses, its object augmented with
the lyrics text under the fixed key `"lrc"` (empty string when the lyrics
block is absent) is returned; if its JSON does not parse, the function
returns `None` at once without trying later scripts; if no script matches
the pattern, `None` is returned. -/
theorem extract_app_data_first_match_decides :
    (∀ soup : List HNode,
      listFind ⟨"div", none, some ("id", "content-lrc")⟩ soup = none →
      extract_lrc soup = "") ∧
    (∀ soup : List HNode,
      (∀ sc ∈ scriptTags soup, ∃ c, tagString sc = some c ∧
        searchAppData c.data = none) →
      extract_app_data soup = .ok none) ∧
    (∀ (soup pre : List HNode) (sc : HNode) (post : List HNode)
        (content m : String),
      scriptTags soup = pre ++ sc :: post →
      (∀ s ∈ pre, ∃ c, tagString s = some c ∧
        searchAppData c.data = none) →
      tagString sc = some content →
      searchAppData content.data = some m →
      (∀ fs, json_loads m = some (.obj fs) →
        extract_app_data soup =
          .ok (some (dictSet fs "lrc" (.str (extract_lrc soup))))) ∧
      (json_loads m = none → extract_app_data soup = .ok none)) := by
  refine ⟨?_, ?_, ?_⟩
  · intro soup hnone
    simp only [extract_lrc, hnone]
  · intro soup hall
    simp only [extract_app_data]
    exact scanScripts_no_match _ _ hall
  · intro soup pre sc post content m hsplit hpre hsc hm
    constructor
    · intro fs hl
      simp only [extract_app_data, hsplit]
      exact (scanScripts_first_match (extract_lrc soup) pre sc post content
        m hpre hsc hm).1 fs hl
    · intro hl
      simp only [extract_app_data, hsplit]
      exact (scanScripts_first_match (extract_lrc soup) pre sc post content
        m hpre hsc hm).2 hl

/-- The C7 counterexample document: the first script's `window.appData`
assignment holds invalid JSON, the second script's holds valid JSON. -/
def c7Soup : List HNode :=
  [.elem "script" [("type", "text/javascript")]
    [.text "window.appData = \x7bbad\x7d;"],
   .elem "script" [("type", "text/javascript")]
    [.text "window.appData = \x7b\"a\": 1\x7d;"]]

/-- C7 counterexample: the second script of `c7Soup` yields a
syntactically valid JSON object, yet `extract_app_data` returns `None`: on
the first script's `JSONDecodeError` the code returns `None` immediately
instead of trying later scripts, so it is not the case that the first
script yielding VALID JSON wins. -/
theorem extract_app_data_counterexample :
    extract_app_data c7Soup = .ok none ∧
    searchAppData "window.appData = \x7b\"a\": 1\x7d;".data =
      some "\x7b\"a\": 1\x7d" ∧
    json_loads "\x7b\"a\": 1\x7d" = some (.obj [("a", JsonVal.num 1)]) :=
  ⟨rfl, rfl, rfl⟩

/-- A document whose single script does not contain the pattern. -/
def c7NoMatchSoup : List HNode :=
  [.elem "script" [("type", "text/javascript")] [.text "var a = 1;"]]

/-- A document with a lyrics block and one valid `window.appData` script.
The script also carries a pre-existing text field, unrelated to lyrics. -/
def c7GoodSoup : List HNode :=
  [.elem "div" [("id", "content-lrc")]
    [.text "line1", .elem "br" [] [], .text "line2"],
   .elem "script" [("type", "text/javascript")]
    [.text "window.appData = \x7b\"play_id\": \"42\"\x7d;"]]

/-- Witness for the amended C7: a lyrics-less document has empty `lrc`; a
pattern-less script yields `None`; the first matching script of
`c7GoodSoup` parses and its object is returned with the lyrics under
`"lrc"`. -/
theorem extract_app_data_first_match_decides_witness :
    (extract_lrc c7NoMatchSoup = "") ∧
    (extract_app_data c7NoMatchSoup = .ok none) ∧
    (extract_app_data c7GoodSoup =
      .ok (some (dictSet [("play_id", .str "42")] "lrc"
        (.str (extract_lrc c7GoodSoup))))) :=
  ⟨extract_app_data_first_match_decides.1 c7NoMatchSoup rfl,
   extract_app_data_first_match_decides.2.1 c7NoMatchSoup
    (by
      intro sc hsc
      have h1 : sc = .elem "script" [("type", "text/javascript")]
          [.text "var a = 1;"] := List.mem_singleton.mp hsc
      rw [h1]
      exact ⟨"var a = 1;", rfl, rfl⟩),
   (extract_app_data_first_match_decides.2.2 c7GoodSoup []
      (.elem "script" [("type", "text/javascript")]
        [.text "window.appData = \x7b\"play_id\": \"42\"\x7d;"]) []
      "window.appData = \x7b\"play_id\": \"42\"\x7d;" "\x7b\"play_id\": \"42\"\x7d"
      rfl (fun s hs => absurd hs (List.not_mem_nil s)) rfl rfl).1
      [("play_id", .str "42")] rfl⟩

/-- C8: when the keyword equals the top result's artist case-insensitively
(artist-search intent), the selected listing is always one of the listings
whose artist matches the top artist case-insensitively (never a
non-matching one); every listing of that filtered set is selectable (the
draw at index `j` returns its `j`-th element); and if the filter yielded
nothing the top result would be returned rather than failing. -/
theorem select_artist_intent
    (keyword : String) (top : Listing) (rest : List Listing)
    (hk : strLower keyword = strLower top.artist) :
    (∀ choice : Nat, ∃ sel : Listing,
      api_music_gequbao_select keyword (some (top :: rest)) choice =
        .ok sel ∧
      sel ∈ (top :: rest).filter
        (fun s => strLower s.artist = strLower top.artist) ∧
      strLower sel.artist = strLower top.artist) ∧
    (∀ (j : Nat) (hj : j < ((top :: rest).filter
        (fun s => strLower s.artist = strLower top.artist)).length),
      api_music_gequbao_select keyword (some (top :: rest)) j =
        .ok (((top :: rest).filter
          (fun s => strLower s.artist = strLower top.artist)).get ⟨j, hj⟩)) ∧
    ((top :: rest).filter
        (fun s => strLower s.artist = strLower top.artist) = [] →
      ∀ choice : Nat,
        api_music_gequbao_select keyword (some (top :: rest)) choice =
          .ok top) := by
  have hfe : (top :: rest).filter
      (fun s => strLower s.artist = strLower top.artist) =
      top :: rest.filter (fun s => strLower s.artist = strLower top.artist) :=
    List.filter_cons_of_pos (decide_eq_true rfl)
  have hred : ∀ choice : Nat,
      api_music_gequbao_select keyword (some (top :: rest)) choice =
        .ok ((top :: rest.filter
            (fun s => strLower s.artist = strLower top.artist)).get
          ⟨choice % (top :: rest.filter
            (fun s => strLower s.artist = strLower top.artist)).length,
           Nat.mod_lt _ (Nat.succ_pos _)⟩) := by
    intro choice
    simp only [api_music_gequbao_select, if_pos hk, List.filter_cons,
      decide_eq_true rfl, if_pos rfl]
    rfl
  refine ⟨?_, ?_, ?_⟩
  · intro choice
    refine ⟨_, hred choice, ?_, ?_⟩
    · have hm := List.get_mem (top :: rest.filter
        (fun s => strLower s.artist = strLower top.artist))
        (choice % _) (Nat.mod_lt _ (Nat.succ_pos _))
      apply List.mem_filter.mpr
      rcases List.mem_cons.mp hm with h | h
      · exact ⟨by rw [h]; exact List.mem_cons_self top rest,
          by rw [h]; exact decide_eq_true rfl⟩
      · exact ⟨List.mem_cons_of_mem top (List.mem_filter.mp h).1,
          (List.mem_filter.mp h).2⟩
    · have hm := List.get_mem (top :: rest.filter
        (fun s => strLower s.artist = strLower top.artist))
        (choice % _) (Nat.mod_lt _ (Nat.succ_pos _))
      rcases List.mem_cons.mp hm with h | h
      · rw [h]
      · exact of_decide_eq_true (List.mem_filter.mp h).2
  · intro j hj
    have hj' : j < (top :: rest.filter
        (fun s => strLower s.artist = strLower top.artist)).length := by
      rw [← hfe]; exact hj
    have hgd : ∀ (l : List Listing) (n : Nat) (h : n < l.length),
        l.get ⟨n, h⟩ = l.getD n top := by
      intro l n h
      rw [List.getD_eq_get]
    rw [hred j, hgd, hgd, hfe, Nat.mod_eq_of_lt hj']
  · intro h
    rw [hfe] at h
    exact absurd h (List.cons_ne_nil _ _)

/-- Witness for C8: keyword `"林俊杰"` equals the top artist; of the three
listings, two share that artist; the draw at index 1 selects the second
matching listing (the third overall) — never the non-matching one. -/
theorem select_artist_intent_witness :
    strLower "林俊杰" =
      strLower (Listing.artist ⟨"/1", "s1", "林俊杰"⟩) ∧
    api_music_gequbao_select "林俊杰"
      (some [⟨"/1", "s1", "林俊杰"⟩, ⟨"/2", "s2", "别人"⟩,
             ⟨"/3", "s3", "林俊杰"⟩]) 1 =
      .ok ⟨"/3", "s3", "林俊杰"⟩ := by
  refine ⟨rfl, ?_⟩
  have h := (select_artist_intent "林俊杰" ⟨"/1", "s1", "林俊杰"⟩
    [⟨"/2", "s2", "别人"⟩, ⟨"/3", "s3", "林俊杰"⟩] rfl).2.1 1 (by decide)
  rw [h]
  rfl
